import Mathlib

/-!
Verification development for the PPNG-to-PNG compiler in `sngc.c`.

The embedding below translates the compiler's data encoder (`collect_data`),
numeric-token validators (`long_numeric`, `byte_numeric`, `double_numeric`),
chunk compilers (`compile_IHDR`, `compile_PLTE`, `compile_IMAGE`, `compile_cHRM`)
and the dispatcher loop (`pngc`) into executable Lean functions.  Bytes read from
the input stream are modelled as natural numbers (the C code works on `int`
character codes); fallible code returns `Except String α`, where the string is
the message passed to `fatal` (file/line prefixes are added by the reporter and
are not part of the model; apostrophes in a few messages are expanded to full
words, e.g. "cannot" for "can't", since only message identity matters).

The emission backend (libpng: `png_write_info`, `png_write_chunk`,
`png_write_image`, `png_write_end`) is an external collaborator and is not
modelled; the embedding covers the compiler core: token-level chunk parsing,
data decoding, and the ordering/multiplicity validator.
-/

deriving instance DecidableEq for Except

namespace Sngc

/-! ### ASCII character classification (C locale `ctype.h` on byte values) -/

def isdigitB (c : Nat) : Bool := 48 ≤ c && c ≤ 57

def isupperB (c : Nat) : Bool := 65 ≤ c && c ≤ 90

def islowerB (c : Nat) : Bool := 97 ≤ c && c ≤ 122

def isalphaB (c : Nat) : Bool := isupperB c || islowerB c

def isxdigitB (c : Nat) : Bool := isdigitB c || (65 ≤ c && c ≤ 70) || (97 ≤ c && c ≤ 102)

def isspaceB (c : Nat) : Bool := c = 32 || (9 ≤ c && c ≤ 13)

/-! ### Flat byte memory

`collect_data` writes through a growable `malloc`ed buffer at positions `nbits`.
We model the buffer as a list of bytes extended with zeroes on demand
(`malloc` memory is in fact uninitialized; the single place where the source
reads a byte it never wrote -- the `|=` at the very first hex digit -- is
modelled as reading 0). -/

def writeAt : List Nat → Nat → Nat → List Nat
  | [], 0, v => [v]
  | [], i + 1, v => 0 :: writeAt [] i v
  | _ :: t, 0, v => v :: t
  | h :: t, i + 1, v => h :: writeAt t i v

def readAt : List Nat → Nat → Nat
  | [], _ => 0
  | h :: _, 0 => h
  | _ :: t, i + 1 => readAt t i

/-! ### The data encoder: `collect_data` (sngc.c lines 344-413) -/

/-- Decoder state of `collect_data`: buffer contents, `nbits`, `ocount`. -/
structure DataAcc where
  mem : List Nat := []
  nbits : Nat := 0
  ocount : Nat := 0
deriving DecidableEq

/-- Value of one character in pixel-per-character (dense, base-62) mode,
sngc.c lines 384-391: digits map to 0-9, uppercase to 36-61, lowercase
to 10-35; anything else is fatal. -/
def pixValue (c : Nat) : Except String Nat :=
  if ¬ isalphaB c ∧ ¬ isdigitB c then .error "bad character in IDAT block"
  else if isdigitB c then .ok (c - 48)
  else if isupperB c then .ok (c - 65 + 36)
  else .ok (c - 97 + 10)

/-- Value of one character in hex mode, sngc.c lines 396-403. -/
def hexValue (c : Nat) : Except String Nat :=
  if ¬ isxdigitB c then .error "bad character in IDAT block"
  else if isdigitB c then .ok (c - 48)
  else if isupperB c then .ok (c - 65 + 10)
  else .ok (c - 97 + 10)

/-- One decoded character in pixel-per-character mode: `bits[nbits++] = value`
(sngc.c line 392). -/
def pixStep (acc : DataAcc) (v : Nat) : DataAcc :=
  { acc with mem := writeAt acc.mem acc.nbits v, nbits := acc.nbits + 1 }

/-- One decoded character in hex mode, sngc.c lines 404-407:
`if (ocount++ % 2) bits[nbits] = value * 16; else bits[nbits++] |= value;`.
The test uses the pre-increment value of `ocount`. -/
def hexStep (acc : DataAcc) (v : Nat) : DataAcc :=
  if acc.ocount % 2 = 1 then
    { acc with
        mem := writeAt acc.mem acc.nbits (v * 16)
        ocount := acc.ocount + 1 }
  else
    { acc with
        mem := writeAt acc.mem acc.nbits (Nat.lor (readAt acc.mem acc.nbits) v)
        nbits := acc.nbits + 1
        ocount := acc.ocount + 1 }

/-- The character loop of `collect_data` (sngc.c lines 368-409) over the
remaining input bytes.  `while ((c = fgetc(yyin)))` exits silently on a NUL
byte; end of input before the closing brace is fatal; the closing brace
(byte 125) stops collection; whitespace is skipped. -/
def collectGo (pixperchar : Bool) : List Nat → DataAcc → Except String DataAcc
  | [], _ => .error "unexpected EOF in data segment"
  | c :: rest, acc =>
    if c = 0 then .ok acc
    else if c = 125 then .ok acc
    else if isspaceB c then collectGo pixperchar rest acc
    else
      match (if pixperchar then pixValue c else hexValue c) with
      | .error e => .error e
      | .ok v => collectGo pixperchar rest
          (if pixperchar then pixStep acc v else hexStep acc v)

/-- `collect_data` (sngc.c lines 344-413): returns the first `nbits` bytes of
the buffer, as handed back through `*pnbits`/`*pbits`. -/
def collect_data (pixperchar : Bool) (input : List Nat) : Except String (List Nat) :=
  match collectGo pixperchar input {} with
  | .error e => .error e
  | .ok acc => .ok ((List.range acc.nbits).map (readAt acc.mem))

/-! ### Numeric token validators (sngc.c lines 302-342)

The validators call the C library's `strtoul`/`strtod`; those are external
library routines, modelled here on the token shapes the grammar produces. -/

/-- Model of the C library call `strtoul(s, &vp, 0)` on tokens consisting
solely of decimal digits: the numeral's value, clamped to `ULONG_MAX`
(LP64), with `none` when the token is empty or contains a non-digit (in
which case the caller's `*vp` test fires).  Sign and base prefixes are
outside the fragment exercised by these claims. -/
def strtoulModel (s : String) : Option Nat :=
  if s.data ≠ [] ∧ s.data.all Char.isDigit then
    some (min (s.data.foldl (fun a c => a * 10 + (c.toNat - 48)) 0) (2 ^ 64 - 1))
  else none

/-- `long_numeric` (sngc.c lines 302-314) on a fetched token: rejects tokens
`strtoul` does not consume entirely and the single value 2147483647; every
other value `strtoul` returns is accepted. -/
def long_numeric (s : String) : Except String Nat :=
  match strtoulModel s with
  | none => .error "invalid or out of range long constant"
  | some n =>
    if n = 2147483647 then .error "invalid or out of range long constant"
    else .ok n

/-- `byte_numeric` (sngc.c lines 316-328): rejects unconsumed tokens and
values above 255. -/
def byte_numeric (s : String) : Except String Nat :=
  match strtoulModel s with
  | none => .error "invalid or out of range byte constant"
  | some n =>
    if n > 255 then .error "invalid or out of range byte constant"
    else .ok n

/-- `double_numeric` (sngc.c lines 330-342), which calls the C library's
`strtod` and rejects unconsumed tokens and negative results.  Modelled on
unsigned decimal numerals (digits with at most one decimal point, at least
one digit), which are never negative; the parsed value itself is not used
by any claim, so it is not tracked. -/
def double_numeric (s : String) : Except String Unit :=
  if s.data ≠ [] ∧ s.data.all (fun c => c.isDigit ∨ c = '.') ∧
      s.data.count '.' ≤ 1 ∧ s.data.any Char.isDigit then .ok ()
  else .error "invalid or out of range double-precision constant"

/-! ### `compile_IHDR` (sngc.c lines 421-457)

A chunk body is modelled as the list of its tokens up to and including the
closing brace token; an exhausted list models end of input (`get_token`
returning false).  PNG color-type mask bits: palette 1, color 2, alpha 4. -/

/-- The slice of libpng's `info_ptr` that `compile_IHDR` fills in, with the
initial values set at sngc.c lines 427-429 (the info struct itself is
zero-initialized by `png_create_info_struct`). -/
structure IhdrAcc where
  height : Nat := 0
  width : Nat := 0
  bit_depth : Nat := 8
  color_type : Nat := 0
  interlaced : Bool := false
deriving DecidableEq

/-- The `get_inner_token` loop of `compile_IHDR` (sngc.c lines 430-450).
Assignments to the `png_uint_32` fields `height`/`width` reduce modulo 2^32. -/
def ihdrGo : List String → IhdrAcc → Except String IhdrAcc
  | [], _ => .error "unexpected EOF"
  | t :: rest, acc =>
    if t = "\x7d" then .ok acc
    else if t = "height" then
      match rest with
      | [] => .error "EOF while expecting long-integer constant"
      | v :: r2 =>
        match long_numeric v with
        | .error e => .error e
        | .ok n => ihdrGo r2 { acc with height := n % 2 ^ 32 }
    else if t = "width" then
      match rest with
      | [] => .error "EOF while expecting long-integer constant"
      | v :: r2 =>
        match long_numeric v with
        | .error e => .error e
        | .ok n => ihdrGo r2 { acc with width := n % 2 ^ 32 }
    else if t = "bitdepth" then
      match rest with
      | [] => .error "EOF while expecting byte constant"
      | v :: r2 =>
        match byte_numeric v with
        | .error e => .error e
        | .ok n => ihdrGo r2 { acc with bit_depth := n }
    else if t = "using" then ihdrGo rest acc
    else if t = "palette" then
      ihdrGo rest { acc with color_type := Nat.lor acc.color_type 1 }
    else if t = "color" then
      ihdrGo rest { acc with color_type := Nat.lor acc.color_type 2 }
    else if t = "alpha" then
      ihdrGo rest { acc with color_type := Nat.lor acc.color_type 4 }
    else if t = "with" then ihdrGo rest acc
    else if t = "interlace" then ihdrGo rest { acc with interlaced := true }
    else .error ("bad token " ++ t ++ " in IHDR specification")

/-- `compile_IHDR` (sngc.c lines 421-457): the token loop followed by the
zero/nonexistent sanity checks on height and width. -/
def compile_IHDR (toks : List String) : Except String IhdrAcc :=
  match ihdrGo toks {} with
  | .error e => .error e
  | .ok acc =>
    if acc.height = 0 then .error "image height is zero or nonexistent"
    else if acc.width = 0 then .error "image width is zero or nonexistent"
    else .ok acc

/-! ### `compile_PLTE` (sngc.c lines 459-483)

The C routine writes each parsed `(r,g,b)` triple into the fixed stack
array `png_color palette[256]` at index `ncolors` WITHOUT any bound check;
the write is modelled as appending to a list (for `ncolors >= 256` the C
write lands out of the array's bounds). -/

/-- The triple loop of `compile_PLTE` (sngc.c lines 468-479).  Each channel
is `byte_numeric(get_token())` (an exhausted token list makes `byte_numeric`
fail with its EOF message) and each separator goes through `require_or_die`
(sngc.c lines 293-300: "unexpected EOF" at end of input, "unexpected token"
on a mismatch), here laid out inline over the token list. -/
def plteGo : List String → List (Nat × Nat × Nat) → Except String (List (Nat × Nat × Nat))
  | [], _ => .error "unexpected EOF"
  | t :: rest, pal =>
    if t = "\x7d" then .ok pal
    else if t ≠ "(" then .error "bad syntax in PLTE description"
    else
      match rest with
      | [] => .error "EOF while expecting byte constant"
      | rt :: rest1 =>
        match byte_numeric rt with
        | .error e => .error e
        | .ok r =>
          match rest1 with
          | [] => .error "unexpected EOF"
          | c1 :: rest2 =>
            if c1 ≠ "," then .error ("unexpected token " ++ c1)
            else
              match rest2 with
              | [] => .error "EOF while expecting byte constant"
              | gt :: rest3 =>
                match byte_numeric gt with
                | .error e => .error e
                | .ok g =>
                  match rest3 with
                  | [] => .error "unexpected EOF"
                  | c2 :: rest4 =>
                    if c2 ≠ "," then .error ("unexpected token " ++ c2)
                    else
                      match rest4 with
                      | [] => .error "EOF while expecting byte constant"
                      | bt :: rest5 =>
                        match byte_numeric bt with
                        | .error e => .error e
                        | .ok b =>
                          match rest5 with
                          | [] => .error "unexpected EOF"
                          | c3 :: rest6 =>
                            if c3 ≠ ")" then .error ("unexpected token " ++ c3)
                            else plteGo rest6 (pal ++ [(r, g, b)])

/-- `compile_PLTE` (sngc.c lines 459-483): returns the accumulated palette
entries handed to `png_set_PLTE` in input order. -/
def compile_PLTE (toks : List String) : Except String (List (Nat × Nat × Nat)) :=
  plteGo toks []

/-! ### `compile_IMAGE` (sngc.c lines 548-610) -/

/-- The input sample size in bits (sngc.c lines 566-587).  PNG color types:
0 gray, 2 RGB, 3 palette, 4 gray+alpha, 6 RGB+alpha.  The switch has no
default, so for any other color type `sample_size` stays uninitialized
(undefined behavior in the source), modelled as `none`. -/
def sampleSize (color_type bit_depth : Nat) : Option Nat :=
  match color_type with
  | 0 => some bit_depth
  | 3 => some 8
  | 2 => some (bit_depth * 3)
  | 6 => some (bit_depth * 4)
  | 4 => some (bit_depth * 2)
  | _ => none

/-- Encoding selection (sngc.c lines 589-593): pixel-per-character when the
sample fits 5 bits or the image is paletted with at most 62 palette
entries.  `PNG_COLOR_MASK_PALETTE` is bit 1. -/
def samplePerChar (color_type ss num_palette : Nat) : Bool :=
  if ss ≤ 5 ∨ (Nat.land color_type 1 ≠ 0 ∧ num_palette ≤ 62) then true else false

/-- `compile_IMAGE` (sngc.c lines 548-610): select the encoding, collect the
data, and fail unless the byte count equals
`width * height * (sample_size / 8)` (integer division, as in the source).
Row packing and `png_write_image` belong to the external backend. -/
def compile_IMAGE (width height bit_depth color_type num_palette : Nat)
    (body : List Nat) : Except String (List Nat) :=
  match sampleSize color_type bit_depth with
  | none => .error "sample_size is uninitialized: undefined behavior in the source"
  | some ss =>
    match collect_data (samplePerChar color_type ss num_palette) body with
    | .error e => .error e
    | .ok bits =>
      if bits.length ≠ width * height * (ss / 8) then
        .error "size of IMAGE does not match height * width in IHDR"
      else .ok bits

/-! ### `compile_cHRM` (sngc.c lines 499-546) -/

/-- Color names of the cHRM specification and the completeness-mask bit each
one sets (sngc.c lines 508-531). -/
def chrmColorBit (t : String) : Option Nat :=
  if t = "white" then some 1
  else if t = "red" then some 2
  else if t = "green" then some 4
  else if t = "blue" then some 8
  else none

/-- The loop of `compile_cHRM` (sngc.c lines 504-540): `name ( x , y )`
groups, OR-ing each name's bit into the completeness mask.  The coordinate
values go through `double_numeric(get_inner_token())`: end of input is
"unexpected EOF", a closing brace there makes `double_numeric` fail with
its EOF message; separators go through `require_or_die`. -/
def chrmGo : List String → Nat → Except String Nat
  | [], _ => .error "unexpected EOF"
  | t :: rest, cmask =>
    if t = "\x7d" then .ok cmask
    else
      match chrmColorBit t with
      | none => .error "invalid color name in cHRM specification"
      | some bit =>
        match rest with
        | [] => .error "unexpected EOF"
        | p1 :: r1 =>
          if p1 ≠ "(" then .error ("unexpected token " ++ p1)
          else
            match r1 with
            | [] => .error "unexpected EOF"
            | x :: r2 =>
              if x = "\x7d" then .error "EOF while expecting double-precision constant"
              else
                match double_numeric x with
                | .error e => .error e
                | .ok _ =>
                  match r2 with
                  | [] => .error "unexpected EOF"
                  | c1 :: r3 =>
                    if c1 ≠ "," then .error ("unexpected token " ++ c1)
                    else
                      match r3 with
                      | [] => .error "unexpected EOF"
                      | y :: r4 =>
                        if y = "\x7d" then
                          .error "EOF while expecting double-precision constant"
                        else
                          match double_numeric y with
                          | .error e => .error e
                          | .ok _ =>
                            match r4 with
                            | [] => .error "unexpected EOF"
                            | c2 :: r5 =>
                              if c2 ≠ ")" then .error ("unexpected token " ++ c2)
                              else chrmGo r5 (Nat.lor cmask bit)

/-- `compile_cHRM` (sngc.c lines 499-546): after the loop the 4-bit
completeness mask must be 0x0f. -/
def compile_cHRM (toks : List String) : Except String Nat :=
  match chrmGo toks 0 with
  | .error e => .error e
  | .ok m =>
    if m ≠ 15 then .error "cHRM specification is not complete" else .ok m

/-! ### Vocabulary table and dispatcher (sngc.c lines 38-107 and 612-857)

A chunk of the input is modelled as its keyword plus its body, the latter
pre-split both as the token list consumed by the token-level chunk
compilers and as the raw byte list consumed by `collect_data` (both are
views of the same source text between the braces; the opening-brace
`missing chunk delimiter` check is below the granularity of this model).
The emission backend calls (`png_write_info` etc.) are external and carry
no validation in this model. -/

/-- The `properties` table (sngc.c lines 38-107): name and
`multiple_ok` per chunk type, in source order.  Indices 17-23 (oFFs, pCAL,
sCAL, gIFg, gIFt, gIFx, fRAc) all carry the copy-pasted name "pHYs" in the
source, so lookup can never reach them. -/
def properties : List (String × Bool) :=
  [("IHDR", false), ("PLTE", false), ("IDAT", true), ("cHRM", false),
   ("gAMA", false), ("iCCP", false), ("sBIT", false), ("sRGB", false),
   ("bKGD", false), ("hIST", false), ("tRNS", false), ("pHYs", false),
   ("sPLT", true), ("tIME", false), ("iTXt", true), ("tEXt", true),
   ("zTXt", true),
   ("pHYs", false), ("pHYs", false), ("pHYs", false), ("pHYs", false),
   ("pHYs", false), ("pHYs", false), ("pHYs", false),
   ("IMAGE", false), ("private", true)]

/-- The keyword-lookup loop of `pngc` (sngc.c lines 658-662): index of the
first table entry whose name equals the token. -/
def lookupGo (kw : String) : List (String × Bool) → Nat → Option Nat
  | [], _ => none
  | p :: rest, i => if p.1 = kw then some i else lookupGo kw rest (i + 1)

def lookupChunk (kw : String) : Option Nat := lookupGo kw properties 0

/-- One chunk of the input stream. -/
structure Chunk where
  keyword : String
  toks : List String := []
  raw : List Nat := []
deriving DecidableEq

/-- Compiler state threaded through the dispatcher loop: the per-entry
occurrence counts of the `properties` table, the `prevchunk` marker
(`none` models the initial `NONE`), the IHDR image description, the
palette handed to `png_set_PLTE` with its `num_palette`, and the IDAT
payloads handed to `png_write_chunk` in order. -/
structure PState where
  counts : List Nat := []
  prevchunk : Option Nat := none
  ihdr : IhdrAcc := {}
  palette : List (Nat × Nat × Nat) := []
  num_palette : Nat := 0
  payloads : List (List Nat) := []
deriving DecidableEq

def getCount (st : PState) (i : Nat) : Nat := readAt st.counts i

def bumpCount (st : PState) (i : Nat) : PState :=
  { st with counts := writeAt st.counts i (getCount st i + 1) }

/-- The dispatch switch of `pngc` (sngc.c lines 673-832), by table index.
Table indices: 0 IHDR, 1 PLTE, 2 IDAT, 3 cHRM, 4 gAMA, 5 iCCP, 6 sBIT,
7 sRGB, 8 bKGD, 9 hIST, 10 tRNS, 11 pHYs, 12 sPLT, 13 tIME, 14 iTXt,
15 tEXt, 16 zTXt, 17-23 the PNG-1.2 special chunks, 24 IMAGE, 25 private. -/
def dispatch (st : PState) (idx : Nat) (ch : Chunk) : Except String PState :=
  match idx with
  | 0 =>
    if st.prevchunk ≠ none then .error "IHDR chunk must come first"
    else
      match compile_IHDR ch.toks with
      | .error e => .error e
      | .ok a => .ok { st with ihdr := a }
  | 1 =>
    if getCount st 2 ≠ 0 then .error "PLTE chunk must come before IDAT"
    else if getCount st 8 ≠ 0 then .error "PLTE chunk encountered after bKGD"
    else if getCount st 10 ≠ 0 then .error "PLTE chunk encountered after tRNS"
    else if Nat.land st.ihdr.color_type 1 = 0 then
      .error "PLTE chunk specified for non-palette image type"
    else
      match compile_PLTE ch.toks with
      | .error e => .error e
      | .ok pal => .ok { st with palette := pal, num_palette := pal.length }
  | 2 =>
    if getCount st 24 ≠ 0 then .error "cannot mix IDAT and IMAGE specs"
    else if st.prevchunk ≠ some 2 ∧ getCount st 2 ≠ 0 then
      .error "IDAT chunks must be contiguous"
    else
      match collect_data false ch.raw with
      | .error e => .error e
      | .ok bits => .ok { st with payloads := st.payloads ++ [bits] }
  | 3 =>
    if getCount st 1 ≠ 0 ∨ getCount st 2 ≠ 0 then
      .error "cHRM chunk must come before PLTE and IDAT"
    else
      match compile_cHRM ch.toks with
      | .error e => .error e
      | .ok _ => .ok st
  | 4 =>
    if getCount st 1 ≠ 0 ∨ getCount st 2 ≠ 0 then
      .error "gAMA chunk must come before PLTE and IDAT"
    else
      match ch.toks with
      | [] => .error "EOF while expecting double-precision constant"
      | v :: rest =>
        match double_numeric v with
        | .error e => .error e
        | .ok _ =>
          match rest with
          | [] => .error "bad token in gAMA specification"
          | t :: _ =>
            if t = "\x7d" then .ok st
            else .error "bad token in gAMA specification"
  | 5 =>
    if getCount st 1 ≠ 0 ∨ getCount st 2 ≠ 0 then
      .error "iCCP chunk must come before PLTE and IDAT"
    else .error "FIXME: iCCP chunk type is not handled yet"
  | 6 =>
    if getCount st 1 ≠ 0 ∨ getCount st 2 ≠ 0 then
      .error "sBIT chunk must come before PLTE and IDAT"
    else .error "FIXME: sBIT chunk type is not handled yet"
  | 7 =>
    if getCount st 1 ≠ 0 ∨ getCount st 2 ≠ 0 then
      .error "sRGB chunk must come before PLTE and IDAT"
    else
      match ch.toks with
      | [] => .error "EOF while expecting byte constant"
      | v :: rest =>
        match byte_numeric v with
        | .error e => .error e
        | .ok _ =>
          match rest with
          | [] => .error "bad token in sRGB specification"
          | t :: _ =>
            if t = "\x7d" then .ok st
            else .error "bad token in sRGB specification"
  | 8 =>
    if getCount st 2 ≠ 0 then
      .error "bKGD chunk must come between PLTE (if any) and IDAT"
    else .error "FIXME: bKGD chunk type is not handled yet"
  | 9 =>
    if getCount st 1 = 0 ∨ getCount st 2 ≠ 0 then
      .error "bKGD chunk must come between PLTE and IDAT"
    else .error "FIXME: hIST chunk type is not handled yet"
  | 10 =>
    if getCount st 2 ≠ 0 then
      .error "tRNS chunk must come between PLTE (if any) and IDAT"
    else .error "FIXME: tRNS chunk type is not handled yet"
  | 11 =>
    if getCount st 2 ≠ 0 then .error "pHYs chunk must come before IDAT"
    else .error "FIXME: pHYs chunk type is not handled yet"
  | 12 =>
    if getCount st 2 ≠ 0 then .error "sPLT chunk must come before IDAT"
    else .error "FIXME: sPLT chunk type is not handled yet"
  | 13 => .error "FIXME: tIME chunk type is not handled yet"
  | 14 => .error "FIXME: iTXt chunk type is not handled yet"
  | 15 => .error "FIXME: tEXt chunk type is not handled yet"
  | 16 => .error "FIXME: zTXt chunk type is not handled yet"
  | 17 =>
    if getCount st 2 ≠ 0 then .error "oFFs chunk must come before IDAT"
    else .error "FIXME: oFFs chunk type is not handled yet"
  | 18 =>
    if getCount st 2 ≠ 0 then .error "pCAL chunk must come before IDAT"
    else .error "FIXME: pCAL chunk type is not handled yet"
  | 19 =>
    if getCount st 2 ≠ 0 then .error "sCAL chunk must come before IDAT"
    else .error "FIXME: sCAL chunk type is not handled yet"
  | 20 => .error "FIXME: gIFg chunk type is not handled yet"
  | 21 => .error "FIXME: gIFt chunk type is not handled yet"
  | 22 => .error "FIXME: gIFx chunk type is not handled yet"
  | 23 => .error "FIXME: fRAc chunk type is not handled yet"
  | 24 =>
    if getCount st 2 ≠ 0 then .error "cannot mix IDAT and IMAGE specs"
    else
      match compile_IMAGE st.ihdr.width st.ihdr.height st.ihdr.bit_depth
          st.ihdr.color_type st.num_palette ch.raw with
      | .error e => .error e
      | .ok _ => .ok (bumpCount st 2)
  | _ => .error "FIXME: private chunk types are not handled yet"

/-- One iteration of the dispatcher loop (sngc.c lines 654-838): look the
keyword up in the vocabulary table (failing with the unknown-chunk-type
message, which carries no token text), apply the generic repetition check,
dispatch, then increment the entry's count and update `prevchunk`. -/
def pngcStep (st : PState) (ch : Chunk) : Except String PState :=
  match lookupChunk ch.keyword with
  | none => .error "unknown chunk type"
  | some idx =>
    if (properties.getD idx ("", true)).2 = false ∧ getCount st idx ≠ 0 then
      .error "illegal repeated chunk"
    else
      match dispatch st idx ch with
      | .error e => .error e
      | .ok st2 => .ok { bumpCount st2 idx with prevchunk := some idx }

/-- The end-of-stream sanity checks (sngc.c lines 840-845). -/
def endChecks (st : PState) : Except String PState :=
  if getCount st 1 = 0 ∧ Nat.land st.ihdr.color_type 1 ≠ 0 then
    .error "palette property set, but no PLTE chunk found"
  else if getCount st 2 = 0 then .error "no image data"
  else .ok st

/-- The dispatcher loop over the chunk stream followed by the end-of-stream
checks. -/
def pngcRun : PState → List Chunk → Except String PState
  | st, [] => endChecks st
  | st, ch :: rest =>
    match pngcStep st ch with
    | .error e => .error e
    | .ok st2 => pngcRun st2 rest

/-- `pngc` (sngc.c lines 612-857) from the freshly initialized state. -/
def pngc (chunks : List Chunk) : Except String PState := pngcRun {} chunks

/-- Did the compile succeed? -/
def okB {α : Type} : Except String α → Bool
  | .ok _ => true
  | .error _ => false

/-! ### Concrete input fixtures used by the theorems below -/

/-- The PLTE body consisting of `n` copies of the triple `( 0 , 0 , 0 )`
followed by the closing brace. -/
def plteZeroBody (n : Nat) : List String :=
  (List.replicate n ["(", "0", ",", "0", ",", "0", ")"]).flatten ++ ["\x7d"]

/-- An IHDR chunk declaring a 1 x 1 grayscale image. -/
def ihdrChunk : Chunk :=
  { keyword := "IHDR", toks := ["height", "1", "width", "1", "\x7d"] }

/-- An IDAT chunk whose hex data segment is the single digit 0. -/
def idatChunkA : Chunk := { keyword := "IDAT", raw := [48, 125] }

/-- An IDAT chunk whose hex data segment is the single digit F. -/
def idatChunkB : Chunk := { keyword := "IDAT", raw := [70, 125] }

/-- A gAMA chunk with body `1.0 }`. -/
def gammaChunk : Chunk := { keyword := "gAMA", toks := ["1.0", "\x7d"] }

/-- An IMAGE chunk whose data segment is `FF` (one byte for a 1 x 1
8-bit grayscale image). -/
def imageChunk : Chunk := { keyword := "IMAGE", raw := [70, 70, 125] }

/-- A state as reached right after a valid 1 x 1 grayscale IHDR chunk. -/
def imgStartState : PState :=
  { counts := [1], prevchunk := some 0, ihdr := { height := 1, width := 1 } }

/-- The state `pngcStep` produces from `imgStartState` on `imageChunk`:
both the IDAT count (index 2, sngc.c line 826) and the IMAGE count
(index 24) are incremented and `prevchunk` becomes IMAGE. -/
def imgEndState : PState :=
  { imgStartState with
      counts := writeAt (writeAt imgStartState.counts 2 1) 24 1
      prevchunk := some 24 }

/-- The state `pngc` reaches after `ihdrChunk` and `idatChunkA`. -/
def afterIdatState : PState :=
  { imgStartState with
      counts := writeAt imgStartState.counts 2 1
      prevchunk := some 2
      payloads := [[0]] }

/-! ### Helper lemmas about the flat-memory model and table lookup -/

theorem readAt_writeAt (l : List Nat) (i j v : Nat) :
    readAt (writeAt l i v) j = if i = j then v else readAt l j := by
  induction i generalizing l j with
  | zero =>
    cases l <;> cases j <;> simp [writeAt, readAt]
  | succ i ih =>
    cases l with
    | nil =>
      cases j with
      | zero => simp [writeAt, readAt]
      | succ j => simpa [writeAt, readAt] using ih [] j
    | cons h t =>
      cases j with
      | zero => simp [writeAt, readAt]
      | succ j => simpa [writeAt, readAt] using ih t j

theorem lookupGo_lt_length (kw : String) :
    ∀ (l : List (String × Bool)) (i j : Nat), lookupGo kw l i = some j → j < i + l.length := by
  intro l
  induction l with
  | nil => intro i j h; simp [lookupGo] at h
  | cons p rest ih =>
    intro i j h
    unfold lookupGo at h
    by_cases hp : p.1 = kw
    · rw [if_pos hp] at h
      injection h with h
      subst h
      simp
    · rw [if_neg hp] at h
      have := ih (i + 1) j h
      simp only [List.length_cons]
      omega

/-- Shape of `pngcStep` once the keyword lookup has resolved to a table
index. -/
theorem pngcStep_some (st : PState) (ch : Chunk) (idx : Nat)
    (hl : lookupChunk ch.keyword = some idx) :
    pngcStep st ch =
      if (properties.getD idx ("", true)).2 = false ∧ getCount st idx ≠ 0 then
        .error "illegal repeated chunk"
      else
        match dispatch st idx ch with
        | .error e => .error e
        | .ok st2 => .ok { bumpCount st2 idx with prevchunk := some idx } := by
  unfold pngcStep
  rw [hl]

/-- After a successfully dispatched IDAT chunk (`prevchunk` is set, the IDAT
count is positive), the dispatch case of every table index other than IDAT
itself ends in `fatal`: its ordering precondition mentions the IDAT count,
or it is an unimplemented chunk type, or (for IHDR) the chunk is no longer
first. -/
theorem dispatch_blocked (st : PState) (ch : Chunk) (idx : Nat)
    (h2 : getCount st 2 ≠ 0) (hp : st.prevchunk ≠ none)
    (hi : idx < 26) (hne : idx ≠ 2) :
    okB (dispatch st idx ch) = false := by
  interval_cases idx
  · simp [dispatch, okB, hp]
  · simp [dispatch, okB, h2]
  · exact absurd rfl hne
  · simp [dispatch, okB, h2]
  · simp [dispatch, okB, h2]
  · simp [dispatch, okB, h2]
  · simp [dispatch, okB, h2]
  · simp [dispatch, okB, h2]
  · simp [dispatch, okB, h2]
  · simp [dispatch, okB, h2]
  · simp [dispatch, okB, h2]
  · simp [dispatch, okB, h2]
  · simp [dispatch, okB, h2]
  · simp [dispatch, okB]
  · simp [dispatch, okB]
  · simp [dispatch, okB]
  · simp [dispatch, okB]
  · simp [dispatch, okB, h2]
  · simp [dispatch, okB, h2]
  · simp [dispatch, okB, h2]
  · simp [dispatch, okB]
  · simp [dispatch, okB]
  · simp [dispatch, okB]
  · simp [dispatch, okB]
  · simp [dispatch, okB, h2]
  · simp [dispatch, okB]

end Sngc

open Sngc

/-- C1.  Hex-pair decoding in `collect_data` does NOT pack the two hex digits
of a pair high-nibble first: the branches of `if (ocount++ % 2)` are swapped,
so the first digit of the stream is OR-ed into the (uninitialized) current
byte as a low nibble and each subsequent pair is split across two output
bytes.  Decoding "00FF0A" (bytes 48,48,70,70,48,65 followed by the closing
brace 125) yields [0x00, 0x0F, 0xF0], not the claimed [0x00, 0xFF, 0x0A];
the interspersed-whitespace variant "00 FF 0A" decodes to the same wrong
bytes. -/
theorem C1_hex_pair_decode_wrong :
    collect_data false [48, 48, 70, 70, 48, 65, 125] = .ok [0, 15, 240] ∧
    collect_data false [48, 48, 32, 70, 70, 32, 48, 65, 125] = .ok [0, 15, 240] ∧
    ([0, 15, 240] : List Nat) ≠ [0, 255, 10] := by
  refine ⟨by decide, by decide, by decide⟩

/-- C8.  `collect_data` in hex mode never checks that the digit count is even:
a data segment holding the single hex digit "F" before the closing brace is
accepted and returns one byte (value 15) instead of failing. -/
theorem C8_odd_digit_count_accepted :
    collect_data false [70, 125] = .ok [15] := by decide

set_option maxRecDepth 8192 in
/-- C2.  Dense (pixel-per-character) decoding maps digits 0-9 to values 0-9,
uppercase A-Z to 36-61, lowercase a-z to 10-35, and rejects every other byte
as a fatal bad-character error; in particular character 0 (byte 48) maps to 0,
A (65) to 36 and a (97) to 10. -/
theorem C2_dense_character_mapping :
    (∀ c : Nat, c < 256 →
      ((48 ≤ c ∧ c ≤ 57) → pixValue c = .ok (c - 48) ∧ c - 48 ≤ 9)) ∧
    (∀ c : Nat, c < 256 →
      ((65 ≤ c ∧ c ≤ 90) → pixValue c = .ok (c - 65 + 36) ∧
        36 ≤ c - 65 + 36 ∧ c - 65 + 36 ≤ 61)) ∧
    (∀ c : Nat, c < 256 →
      ((97 ≤ c ∧ c ≤ 122) → pixValue c = .ok (c - 97 + 10) ∧
        10 ≤ c - 97 + 10 ∧ c - 97 + 10 ≤ 35)) ∧
    (∀ c : Nat, c < 256 →
      (¬ ((48 ≤ c ∧ c ≤ 57) ∨ (65 ≤ c ∧ c ≤ 90) ∨ (97 ≤ c ∧ c ≤ 122)) →
        pixValue c = .error "bad character in IDAT block")) :=
  ⟨by decide, by decide, by decide, by decide⟩

/-- Witness for C2 at the concrete bytes 48 ('0'), 65 ('A'), 97 ('a'), 42 ('*'). -/
theorem C2_dense_character_mapping_witness :
    pixValue 48 = .ok 0 ∧ pixValue 65 = .ok 36 ∧ pixValue 97 = .ok 10 ∧
    pixValue 42 = .error "bad character in IDAT block" :=
  ⟨(C2_dense_character_mapping.1 48 (by decide) (by decide)).1,
   (C2_dense_character_mapping.2.1 65 (by decide) (by decide)).1,
   (C2_dense_character_mapping.2.2.1 97 (by decide) (by decide)).1,
   C2_dense_character_mapping.2.2.2 42 (by decide) (by decide)⟩

/-- C7.  `long_numeric` only rejects the single value 2147483647 (and tokens
with trailing garbage); the value 2147483648 = 2^31 is outside the claimed
range [0, 2^31 - 2] yet is accepted, so an IHDR chunk giving `width`
2147483648 compiles with that width. -/
theorem C7_long_range_check_missing :
    long_numeric "2147483648" = .ok 2147483648 ∧
    compile_IHDR ["height", "1", "width", "2147483648", "\x7d"] =
      .ok { height := 1, width := 2147483648 } ∧
    2 ^ 31 - 2 < 2147483648 :=
  ⟨by decide, by decide, by decide⟩

set_option maxRecDepth 200000 in
/-- C5.  `compile_PLTE` enforces no bound on the number of palette triples:
a body of 257 well-formed triples is accepted and yields 257 entries,
although the claimed palette sequence holds at most 256 entries (the C
routine writes entry 257 past the end of the fixed `png_color palette[256]`
stack array). -/
theorem C5_palette_bound_unchecked :
    compile_PLTE (plteZeroBody 257) = .ok (List.replicate 257 (0, 0, 0)) ∧
    (List.replicate 257 ((0 : Nat), (0 : Nat), (0 : Nat))).length = 257 ∧
    256 < 257 :=
  ⟨by decide, by decide, by decide⟩

/-- C3 counterexample.  The dispatcher rejects a header chunk that is not
first, but it does not reject a non-header first chunk: dispatching gAMA as
the very first chunk succeeds (no ordering error), and a whole compile whose
first chunk is gAMA followed by an IDAT chunk runs to completion in the
compiler core (the emission backend is external to the model), so a compile
whose first chunk is not the header chunk does not fail with an ordering
error. -/
theorem C3_non_header_first_not_rejected :
    pngcStep {} gammaChunk =
      .ok { counts := [0, 0, 0, 0, 1], prevchunk := some 4 } ∧
    okB (pngc [gammaChunk, idatChunkA]) = true :=
  ⟨by decide, by decide⟩

/-- C3 as amended.  A header chunk dispatched after any other chunk always
fails: with the ordering error when no header chunk was seen before, or
with the repeated-chunk error when one was; the converse direction of the
claim (a non-header first chunk fails with an ordering error) is not
enforced by the code. -/
theorem C3_header_after_other_fails (st : PState) (ch : Chunk)
    (hk : ch.keyword = "IHDR") (hp : st.prevchunk ≠ none) :
    pngcStep st ch = .error "IHDR chunk must come first" ∨
    pngcStep st ch = .error "illegal repeated chunk" := by
  have hl : lookupChunk ch.keyword = some 0 := by rw [hk]; decide
  rw [pngcStep_some st ch 0 hl]
  by_cases hc : getCount st 0 ≠ 0
  · right
    rw [if_pos ⟨rfl, hc⟩]
  · left
    rw [if_neg (fun hco => hc hco.2)]
    have hd : dispatch st 0 ch = .error "IHDR chunk must come first" := by
      unfold dispatch
      rw [if_pos hp]
    rw [hd]

/-- Witness for the amended C3 with a gAMA chunk as the previous chunk. -/
theorem C3_header_after_other_fails_witness :
    pngcStep { prevchunk := some 4 } { keyword := "IHDR" } =
      .error "IHDR chunk must come first" ∨
    pngcStep { prevchunk := some 4 } { keyword := "IHDR" } =
      .error "illegal repeated chunk" :=
  C3_header_after_other_fails { prevchunk := some 4 } { keyword := "IHDR" }
    rfl (by decide)

/-- C10 counterexample.  A chunk keyword matching no vocabulary entry fails,
but the diagnostic is the fixed text "unknown chunk type": for the keyword
"XXXX" the message contains no character of the token (no letter X at all),
so it does not report the offending token text. -/
theorem C10_message_lacks_token_text :
    pngcStep {} { keyword := "XXXX" } = .error "unknown chunk type" ∧
    "unknown chunk type".data.all (fun c => c ≠ 'X') = true :=
  ⟨by decide, by decide⟩

/-- C10 as amended.  Every chunk keyword that matches no entry of the
vocabulary table fails with the fixed unknown-chunk-type error, whose
message does not include the offending token text. -/
theorem C10_unknown_keyword_fails (st : PState) (ch : Chunk)
    (h : lookupChunk ch.keyword = none) :
    pngcStep st ch = .error "unknown chunk type" := by
  unfold pngcStep
  rw [h]

/-- Witness for the amended C10 at the keyword "XXXX". -/
theorem C10_unknown_keyword_fails_witness :
    pngcStep {} { keyword := "XXXX" } = .error "unknown chunk type" :=
  C10_unknown_keyword_fails {} { keyword := "XXXX" } (by decide)

/-- C4.  When the sample size is defined for the header's color type and the
data segment decodes successfully, `compile_IMAGE` fails with the
size-mismatch error exactly when the decoded byte count differs from
`width * height * (sample_size / 8)` (integer division, as written in the
source and the spec), and succeeds with the decoded bytes exactly when the
count matches. -/
theorem C4_image_size_mismatch_iff (w h bd ct np ss : Nat)
    (body bits : List Nat)
    (hss : sampleSize ct bd = some ss)
    (hdec : collect_data (samplePerChar ct ss np) body = .ok bits) :
    (compile_IMAGE w h bd ct np body =
        .error "size of IMAGE does not match height * width in IHDR" ↔
      bits.length ≠ w * h * (ss / 8)) ∧
    (compile_IMAGE w h bd ct np body = .ok bits ↔
      bits.length = w * h * (ss / 8)) := by
  unfold compile_IMAGE
  rw [hss]
  dsimp only
  rw [hdec]
  dsimp only
  by_cases hlen : bits.length ≠ w * h * (ss / 8)
  · rw [if_pos hlen]
    exact ⟨by simp [hlen], by simp [hlen]⟩
  · rw [if_neg hlen]
    push_neg at hlen
    exact ⟨by simp [hlen], by simp [hlen]⟩

/-- Witness for C4: a 1 x 1 8-bit grayscale image whose data segment decodes
to 2 bytes (one byte too many) fails with the size-mismatch error. -/
theorem C4_image_size_mismatch_iff_witness :
    sampleSize 0 8 = some 8 ∧
    collect_data (samplePerChar 0 8 0) [70, 70, 70, 70, 125] = .ok [15, 255] ∧
    compile_IMAGE 1 1 8 0 0 [70, 70, 70, 70, 125] =
      .error "size of IMAGE does not match height * width in IHDR" :=
  ⟨by decide, by decide,
   (C4_image_size_mismatch_iff 1 1 8 0 0 8 [70, 70, 70, 70, 125] [15, 255]
      (by decide) (by decide)).1.mpr (by decide)⟩

/-- C9.  At end of stream the compile fails when the palette flag is set in
the header but no PLTE chunk was seen, and fails when the IDAT count is
still zero; a successfully dispatched IMAGE pseudo-chunk increments the
IDAT count (sngc.c line 826), so it satisfies the pixel-data-present
requirement. -/
theorem C9_end_of_stream_checks :
    (∀ st : PState, getCount st 1 = 0 → Nat.land st.ihdr.color_type 1 ≠ 0 →
      endChecks st = .error "palette property set, but no PLTE chunk found") ∧
    (∀ st : PState, getCount st 2 = 0 → okB (endChecks st) = false) ∧
    (∀ (st st2 : PState) (ch : Chunk), ch.keyword = "IMAGE" →
      pngcStep st ch = .ok st2 → 0 < getCount st2 2) := by
  refine ⟨?_, ?_, ?_⟩
  · intro st h1 hflag
    unfold endChecks
    rw [if_pos ⟨h1, hflag⟩]
  · intro st h2
    unfold endChecks
    by_cases hpal : getCount st 1 = 0 ∧ Nat.land st.ihdr.color_type 1 ≠ 0
    · rw [if_pos hpal]; rfl
    · rw [if_neg hpal, if_pos h2]; rfl
  · intro st st2 ch hk h
    have hl : lookupChunk ch.keyword = some 24 := by rw [hk]; decide
    rw [pngcStep_some st ch 24 hl] at h
    by_cases hrep : (properties.getD 24 ("", true)).2 = false ∧ getCount st 24 ≠ 0
    · rw [if_pos hrep] at h
      exact absurd h (by simp)
    · rw [if_neg hrep] at h
      have hd24 : dispatch st 24 ch =
          if getCount st 2 ≠ 0 then .error "cannot mix IDAT and IMAGE specs"
          else
            match compile_IMAGE st.ihdr.width st.ihdr.height st.ihdr.bit_depth
                st.ihdr.color_type st.num_palette ch.raw with
            | .error e => .error e
            | .ok _ => .ok (bumpCount st 2) := by
        unfold dispatch
        rfl
      rw [hd24] at h
      by_cases h2 : getCount st 2 ≠ 0
      · rw [if_pos h2] at h
        exact absurd h (by simp)
      · rw [if_neg h2] at h
        cases hcomp : compile_IMAGE st.ihdr.width st.ihdr.height st.ihdr.bit_depth
            st.ihdr.color_type st.num_palette ch.raw with
        | error e => rw [hcomp] at h; exact absurd h (by simp)
        | ok bits =>
          rw [hcomp] at h
          injection h with h
          subst h
          simp only [getCount, bumpCount]
          rw [readAt_writeAt, if_neg (by decide), readAt_writeAt, if_pos rfl]
          exact Nat.succ_pos _

/-- Witness for C9: a palette-flagged header with no PLTE fails, an empty
stream fails for lack of image data, and the concrete IMAGE step from a
1 x 1 grayscale header leaves a positive IDAT count. -/
theorem C9_end_of_stream_checks_witness :
    endChecks { ihdr := { color_type := 1 } } =
      .error "palette property set, but no PLTE chunk found" ∧
    okB (endChecks {}) = false ∧
    0 < getCount imgEndState 2 :=
  ⟨C9_end_of_stream_checks.1 { ihdr := { color_type := 1 } } (by decide) (by decide),
   C9_end_of_stream_checks.2.1 {} (by decide),
   C9_end_of_stream_checks.2.2 imgStartState imgEndState imageChunk rfl (by decide)⟩

/-- C6 counterexample.  With a gAMA chunk interleaved between two IDAT
chunks the compile does fail, but with the interleaved chunk's own ordering
error, raised before the second IDAT chunk is even reached -- not with the
contiguity error the claim names. -/
theorem C6_interleaved_fails_with_other_error :
    pngc [ihdrChunk, idatChunkA, gammaChunk, idatChunkB] =
      .error "gAMA chunk must come before PLTE and IDAT" ∧
    "gAMA chunk must come before PLTE and IDAT" ≠ "IDAT chunks must be contiguous" :=
  ⟨by decide, by decide⟩

/-- C6 as amended.  Once an IDAT chunk has been processed (IDAT count
positive, `prevchunk` set), dispatching any chunk that is not an IDAT chunk
fails, so no other chunk type can stand between two IDAT chunks -- though
the reported error is the interleaved chunk's own ordering,
not-implemented, or repetition error rather than the contiguity error;
and two adjacent IDAT chunks compile with their payloads forwarded in
input order. -/
theorem C6_idat_contiguity (st : PState) (ch : Chunk)
    (h2 : getCount st 2 ≠ 0) (hp : st.prevchunk ≠ none)
    (hne : lookupChunk ch.keyword ≠ some 2) :
    okB (pngcStep st ch) = false ∧
    Except.map PState.payloads (pngc [ihdrChunk, idatChunkA, idatChunkB]) =
      .ok [[0], [15]] := by
  constructor
  · cases hl : lookupChunk ch.keyword with
    | none => rw [C10_unknown_keyword_fails st ch hl]; rfl
    | some idx =>
      have hidx : idx < 26 := by
        have hb := lookupGo_lt_length ch.keyword properties 0 idx hl
        have hplen : properties.length = 26 := rfl
        omega
      have hidx2 : idx ≠ 2 := fun hcontra => hne (hcontra ▸ hl)
      rw [pngcStep_some st ch idx hl]
      by_cases hrep : (properties.getD idx ("", true)).2 = false ∧ getCount st idx ≠ 0
      · rw [if_pos hrep]; rfl
      · rw [if_neg hrep]
        have hblock := dispatch_blocked st ch idx h2 hp hidx hidx2
        cases hd : dispatch st idx ch with
        | error e => rfl
        | ok st2 => rw [hd] at hblock; exact absurd hblock (by simp [okB])
  · decide

/-- Witness for the amended C6: dispatching a gAMA chunk directly after an
IDAT chunk fails. -/
theorem C6_idat_contiguity_witness :
    okB (pngcStep afterIdatState gammaChunk) = false ∧
    Except.map PState.payloads (pngc [ihdrChunk, idatChunkA, idatChunkB]) =
      .ok [[0], [15]] :=
  C6_idat_contiguity afterIdatState gammaChunk (by decide) (by decide) (by decide)
